import Mathlib

/-!
Shallow embedding of the error-classification and diagnostic-reporting core
of the xen-crashdump-analyser (src/include/exceptions.hpp).

The header declares five failure kinds: `memseek`, `memread`, `pagefault`,
`validate` (all deriving from the abstract base `CommonError`) and
`filewrite` (deriving directly from `std::exception`).  Each kind stores its
context fields as public data members; each offers `what()` (a short kind
tag), `log()` (a formatted diagnostic), and, for `memseek`/`memread`, the
predicate `outside_64GB()`.  All member functions are declared `const`, so
they cannot modify the stored fields; this is embedded below by giving each
operation a state-passing form returning the (unchanged) value together with
its result.

Machine types are embedded as follows: `maddr_t` and `vaddr_t` (64-bit
unsigned) as `Nat`; `ssize_t`, `int64_t` and `int` as `Int`;
`const char *` strings as `String`.
-/

/-- Physical address (`maddr_t`): 64-bit physical offset into the snapshot. -/
abbrev maddr_t := Nat

/-- Virtual address (`vaddr_t`): 64-bit virtual address. -/
abbrev vaddr_t := Nat

/-- Signed size type (`ssize_t`). -/
abbrev ssize_t := Int

/-- The 64 GiB physical-address ceiling of a 32-bit capture kernel:
2^36 bytes. -/
def ceiling64GB : Int := 2 ^ 36

/-- Memseek exception (class `memseek`, src/include/exceptions.hpp lines
65-99): failure to seek on /proc/vmcore.  Stores the intended address and
the offset into the relevant memregion, exactly the constructor arguments. -/
structure memseek where
  addr : maddr_t
  offset : Int

/-- Memread exception (class `memread`, src/include/exceptions.hpp lines
106-146): failure to read a set number of bytes from /proc/vmcore.  Stores
the read location, the number of bytes read (`-1` on hard error), the
intended number of bytes, and the error number (valid if `count` is -1). -/
structure memread where
  addr : maddr_t
  count : ssize_t
  total : ssize_t
  error : Int

/-- Pagefault exception (class `pagefault`, src/include/exceptions.hpp lines
153-184): failure to walk pagetables.  Stores the faulting virtual address,
the cr3 used to start the lookup, and the paging level of the fault. -/
structure pagefault where
  vaddr : vaddr_t
  cr3 : Nat
  level : Int

/-- Validate exception (class `validate`, src/include/exceptions.hpp lines
191-228): validation failure for a virtual address.  Stores the invalid
virtual address and the reason string. -/
structure validate where
  vaddr : vaddr_t
  reason : String

/-- File write exception (class `filewrite`, src/include/exceptions.hpp
lines 237-263): write error on an output stream, thrown from the FPRINTF
wrapper functions.  Stores only the errno of the error. -/
structure filewrite where
  error : Int

/-- Substring containment: `pat` occurs contiguously inside `s`.  Stated as
the existence of a left and a right context on the underlying character
lists, which coincides with list-infix containment and is hence decidable. -/
def strContains (s pat : String) : Prop :=
  ∃ l r : List Char, l ++ pat.data ++ r = s.data

instance (s pat : String) : Decidable (strContains s pat) :=
  inferInstanceAs (Decidable (pat.data <:+: s.data))

/-- Appending strings appends their character data. -/
theorem strData_append (a b : String) : (a ++ b).data = a.data ++ b.data := rfl

/-- Hexadecimal digit for a value below 16 (lower case, as printf `%x`). -/
def hexDigit (n : Nat) : Char :=
  if n < 10 then Char.ofNat (48 + n) else Char.ofNat (87 + n)

/-- Fixed-width big-endian hexadecimal digits of `n`. -/
def hexDigits : Nat → Nat → List Char
  | 0, _ => []
  | w + 1, n => hexDigits w (n / 16) ++ [hexDigit (n % 16)]

/-- A 64-bit value printed as 16 hexadecimal digits (printf `%016x`). -/
def hex64 (n : Nat) : String := ⟨hexDigits 16 n⟩

/-- Modelled from the spec: resolution of a system error code to its error
text (`strerror`); the body lives in the C library, not under src/.  The
spec names code 5 (I/O error, Scenario B) and code 28 (no space left on
device, Scenario D); other codes resolve to a generic text. -/
def sysErrorText (e : Int) : String :=
  if e = 5 then "Input/output error"
  else if e = 28 then "No space left on device"
  else "Unknown error " ++ toString e

namespace memseek

/-- Kind tag of a memseek failure.  The header (line 80) documents
`what()` as returning the string "memseek"; the defining body in
exceptions.cpp is not under src/. -/
def what (_ : memseek) : String := "memseek"

/-- Modelled from the spec: `memseek::outside_64GB` (declared at
src/include/exceptions.hpp line 93, body in exceptions.cpp not under src/).
True exactly when the effective address — the intended address adjusted by
the offset — is at or beyond the fixed 64 GiB ceiling (spec section 8:
exactly 64 GiB - 1 is inside, exactly 64 GiB is outside). -/
def outside_64GB (s : memseek) : Bool :=
  decide (ceiling64GB ≤ (s.addr : Int) + s.offset)

/-- Modelled from the spec: the diagnostic message of `memseek::log`
(declared at line 87, body in exceptions.cpp not under src/).  Contains the
kind tag, the hex-formatted address and the decimal offset, in a fixed
order (spec section 4.3). -/
def logMsg (s : memseek) : String :=
  "memseek error: cannot seek to physical address 0x" ++ hex64 s.addr ++
    " (offset " ++ toString s.offset ++ ")"

/-- State-passing form of the `const` member `what()`: returns the
unchanged value with the result. -/
def whatOp (s : memseek) : memseek × String := (s, s.what)

/-- State-passing form of the `const` member `log()`. -/
def logOp (s : memseek) : memseek × String := (s, s.logMsg)

/-- State-passing form of the `const` member `outside_64GB()`. -/
def outsideOp (s : memseek) : memseek × Bool := (s, s.outside_64GB)

end memseek

namespace memread

/-- Kind tag of a memread failure (header line 123 documents "memread"). -/
def what (_ : memread) : String := "memread"

/-- Modelled from the spec: `memread::outside_64GB` (declared at
src/include/exceptions.hpp line 136, body in exceptions.cpp not under
src/).  True exactly when the read address is at or beyond 64 GiB. -/
def outside_64GB (r : memread) : Bool :=
  decide (ceiling64GB ≤ (r.addr : Int))

/-- Modelled from the spec: the diagnostic message of `memread::log`
(declared at line 130, body in exceptions.cpp not under src/).  The stored
error number is valid only when `count` is -1 (header line 114, line 144),
so only that branch resolves it to system error text; a short read reports
the bytes read and requested. -/
def logMsg (r : memread) : String :=
  if r.count = -1 then
    "memread error: cannot read " ++ toString r.total ++
      " bytes at physical address 0x" ++ hex64 r.addr ++ ": " ++
      sysErrorText r.error
  else
    "memread error: read " ++ toString r.count ++ " of " ++ toString r.total ++
      " bytes at physical address 0x" ++ hex64 r.addr

/-- State-passing form of the `const` member `what()`. -/
def whatOp (r : memread) : memread × String := (r, r.what)

/-- State-passing form of the `const` member `log()`. -/
def logOp (r : memread) : memread × String := (r, r.logMsg)

/-- State-passing form of the `const` member `outside_64GB()`. -/
def outsideOp (r : memread) : memread × Bool := (r, r.outside_64GB)

end memread

namespace pagefault

/-- Kind tag of a pagefault failure (header line 169 documents
"pagefault"). -/
def what (_ : pagefault) : String := "pagefault"

/-- Modelled from the spec: the diagnostic message of `pagefault::log`
(declared at line 176, body in exceptions.cpp not under src/).  Contains
the hex-formatted virtual address, the hex-formatted cr3 and the decimal
level, in a fixed order. -/
def logMsg (p : pagefault) : String :=
  "pagefault error: cannot walk pagetables for virtual address 0x" ++
    hex64 p.vaddr ++ " with cr3 0x" ++ hex64 p.cr3 ++ " at level " ++
    toString p.level

/-- State-passing form of the `const` member `what()`. -/
def whatOp (p : pagefault) : pagefault × String := (p, p.what)

/-- State-passing form of the `const` member `log()`. -/
def logOp (p : pagefault) : pagefault × String := (p, p.logMsg)

end pagefault

namespace validate

/-- Kind tag of a validate failure (header line 210 documents
"validate"). -/
def what (_ : validate) : String := "validate"

/-- Modelled from the spec: the diagnostic message of `validate::log`
(declared at line 217, body in exceptions.cpp not under src/).  Contains
the hex-formatted virtual address and the reason string. -/
def logMsg (v : validate) : String :=
  "validate error: virtual address 0x" ++ hex64 v.vaddr ++ " is invalid: " ++
    v.reason

/-- State-passing form of the `const` member `what()`. -/
def whatOp (v : validate) : validate × String := (v, v.what)

/-- State-passing form of the `const` member `log()`. -/
def logOp (v : validate) : validate × String := (v, v.logMsg)

end validate

namespace filewrite

/-- Modelled from the spec: the kind tag of a filewrite failure.  The body
of `filewrite::what` in exceptions.cpp is not under src/; the header doc
comment at line 251 reads "validate", an apparent copy-paste from the
`validate` class above it, while the spec (section 4.3) requires a stable
short tag identifying the kind within a closed set with no ambiguity, so
the tag is modelled as "filewrite". -/
def what (_ : filewrite) : String := "filewrite"

/-- Modelled from the spec: the diagnostic message of `filewrite::log`
(declared at line 259 with parameter `file`, the name of the file being
written to; body in exceptions.cpp not under src/).  Contains the stream
name and the system error text for the stored errno. -/
def logMsg (f : filewrite) (file : String) : String :=
  "filewrite error: cannot write to " ++ file ++ ": " ++ sysErrorText f.error

/-- State-passing form of the `const` member `what()`. -/
def whatOp (f : filewrite) : filewrite × String := (f, f.what)

/-- State-passing form of the `const` member `log(file)`. -/
def logOp (f : filewrite) (file : String) : filewrite × String :=
  (f, f.logMsg file)

end filewrite

/-- Target channel of a diagnostic message: the primary logfile, or the
best-effort fallback stream used when the logfile is unavailable. -/
inductive LogTarget where
  | logfile
  | fallbackStream

/-- State of the reporter's output channels: whether the primary logfile is
currently accepting writes. -/
structure LogState where
  logfileUp : Bool

/-- Modelled from the spec: the emission path of the reporter behind
`log()` (the logging sink lives outside src/).  Reporting never itself
fails — the result is always `Except.ok`, never a raised failure — and when
the primary channel is unavailable the message degrades to the best-effort
fallback stream (spec section 4.3). -/
def tryLog (st : LogState) (msg : String) : Except filewrite (LogTarget × String) :=
  Except.ok (if st.logfileUp then (LogTarget.logfile, msg) else (LogTarget.fallbackStream, msg))

/-- Outcome of terminating the run: process exit status and final message. -/
structure ProcessExit where
  status : Nat
  message : String

/-- Modelled from the spec: the fatal handling of a filewrite failure
raised while emitting the report (spec section 4.4; the handler lives in
the tool's main loop, not under src/).  The run terminates with a non-zero
exit status and a message naming the failed output stream and the system
error text for the stored errno, obtained from `filewrite::log(file)`. -/
def handleFilewrite (f : filewrite) (stream : String) : ProcessExit :=
  { status := 1, message := f.logMsg stream }

/-- The CommonError family (src/include/exceptions.hpp lines 38-57): the
closed set of failure kinds deriving from the abstract base `CommonError` —
memseek (line 65), memread (line 106), pagefault (line 153) and validate
(line 191).  `filewrite` derives directly from `std::exception` (line 237)
and is deliberately not a constructor of this family. -/
inductive CommonErrorVal where
  | ofMemseek : memseek → CommonErrorVal
  | ofMemread : memread → CommonErrorVal
  | ofPagefault : pagefault → CommonErrorVal
  | ofValidate : validate → CommonErrorVal

/-- Any exception value the program can raise: a member of the CommonError
family, or a filewrite failure. -/
inductive AnyFailure where
  | common : CommonErrorVal → AnyFailure
  | ofFilewrite : filewrite → AnyFailure

/-- A handler catching the `CommonError` base class: it receives exactly
the values of the CommonError family and never a filewrite failure. -/
def catchCommonError : AnyFailure → Option CommonErrorVal
  | AnyFailure.common c => some c
  | AnyFailure.ofFilewrite _ => none

set_option maxRecDepth 40000

/-- C1: the derived predicate `outside_64GB` on memseek and memread
failures returns true exactly when the effective address — for memseek the
intended address adjusted by the signed offset, for memread the read
address — is at or beyond the fixed 64 GiB ceiling, and false otherwise;
in particular an effective address of exactly 64 GiB - 1 yields false and
exactly 64 GiB yields true. -/
theorem c1_outside_64GB_iff_beyond_ceiling :
    (∀ s : memseek, s.outside_64GB = true ↔ ceiling64GB ≤ (s.addr : Int) + s.offset) ∧
    (∀ r : memread, r.outside_64GB = true ↔ ceiling64GB ≤ (r.addr : Int)) ∧
    (memseek.mk (2 ^ 36 - 1) 0).outside_64GB = false ∧
    (memseek.mk (2 ^ 36) 0).outside_64GB = true ∧
    (memseek.mk (2 ^ 35) (2 ^ 35 - 1)).outside_64GB = false ∧
    (memseek.mk (2 ^ 35) (2 ^ 35)).outside_64GB = true ∧
    (memread.mk (2 ^ 36 - 1) 0 0 0).outside_64GB = false ∧
    (memread.mk (2 ^ 36) 0 0 0).outside_64GB = true :=
  ⟨fun s => by simp [memseek.outside_64GB],
   fun r => by simp [memread.outside_64GB],
   by decide, by decide, by decide, by decide, by decide, by decide⟩

/-- C2: the stored system error code of a memread failure is meaningful if
and only if the stored count of bytes read is -1: for any value constructed
with a non-negative count, no operation (`log`, `what`, `outside_64GB`)
depends on the error field, while for count = -1 the diagnostic message
resolves and contains the system error text of the stored code. -/
theorem c2_memread_error_meaningful_iff_count_neg_one :
    (∀ (a : maddr_t) (c : Nat) (t : ssize_t) (e₁ e₂ : Int),
        (memread.mk a (c : Int) t e₁).logMsg = (memread.mk a (c : Int) t e₂).logMsg ∧
        (memread.mk a (c : Int) t e₁).what = (memread.mk a (c : Int) t e₂).what ∧
        (memread.mk a (c : Int) t e₁).outside_64GB = (memread.mk a (c : Int) t e₂).outside_64GB) ∧
    (∀ (a : maddr_t) (t : ssize_t) (e : Int),
        strContains (memread.mk a (-1) t e).logMsg (sysErrorText e)) :=
  ⟨fun a c t e₁ e₂ =>
    ⟨by simp [memread.logMsg, show ((c : Int)) ≠ -1 from by omega], rfl, rfl⟩,
   fun a t e =>
    ⟨("memread error: cannot read " ++ toString t ++ " bytes at physical address 0x" ++
        hex64 a ++ ": ").data, [],
      by simp [memread.logMsg, strData_append]⟩⟩

/-- C3: construction of every failure kind is total and stores the given
context fields verbatim: memseek keeps the address and offset, memread the
address, count, total and error, pagefault the virtual address, cr3 and
level, validate the virtual address and reason, filewrite the error code. -/
theorem c3_construction_total_and_verbatim :
    (∀ (a : maddr_t) (o : Int), (memseek.mk a o).addr = a ∧ (memseek.mk a o).offset = o) ∧
    (∀ (a : maddr_t) (c t : ssize_t) (e : Int),
        (memread.mk a c t e).addr = a ∧ (memread.mk a c t e).count = c ∧
        (memread.mk a c t e).total = t ∧ (memread.mk a c t e).error = e) ∧
    (∀ (va : vaddr_t) (root : Nat) (lvl : Int),
        (pagefault.mk va root lvl).vaddr = va ∧ (pagefault.mk va root lvl).cr3 = root ∧
        (pagefault.mk va root lvl).level = lvl) ∧
    (∀ (va : vaddr_t) (why : String),
        (validate.mk va why).vaddr = va ∧ (validate.mk va why).reason = why) ∧
    (∀ e : Int, (filewrite.mk e).error = e) :=
  ⟨fun _ _ => ⟨rfl, rfl⟩, fun _ _ _ _ => ⟨rfl, rfl, rfl, rfl⟩,
   fun _ _ _ => ⟨rfl, rfl, rfl⟩, fun _ _ => ⟨rfl, rfl⟩, fun _ => rfl⟩

/-- C4: every failure value is immutable after construction: each of its
`const` operations — `what`, `log` and (where present) `outside_64GB`, in
their state-passing forms — returns the value with every stored field
unchanged. -/
theorem c4_operations_preserve_value :
    (∀ s : memseek, s.whatOp.1 = s ∧ s.logOp.1 = s ∧ s.outsideOp.1 = s) ∧
    (∀ r : memread, r.whatOp.1 = r ∧ r.logOp.1 = r ∧ r.outsideOp.1 = r) ∧
    (∀ p : pagefault, p.whatOp.1 = p ∧ p.logOp.1 = p) ∧
    (∀ v : validate, v.whatOp.1 = v ∧ v.logOp.1 = v) ∧
    (∀ (f : filewrite) (file : String), f.whatOp.1 = f ∧ (f.logOp file).1 = f) :=
  ⟨fun _ => ⟨rfl, rfl, rfl⟩, fun _ => ⟨rfl, rfl, rfl⟩,
   fun _ => ⟨rfl, rfl⟩, fun _ => ⟨rfl, rfl⟩, fun _ _ => ⟨rfl, rfl⟩⟩

/-- C5: `what()` returns a stable short tag uniquely identifying the kind
within the closed set of five kinds — "memseek", "memread", "pagefault",
"validate" and the distinct filewrite tag — so a handler can discriminate
the kind from the tag without ambiguity. -/
theorem c5_what_tags_discriminate_kinds :
    (∀ s : memseek, s.what = "memseek") ∧
    (∀ r : memread, r.what = "memread") ∧
    (∀ p : pagefault, p.what = "pagefault") ∧
    (∀ v : validate, v.what = "validate") ∧
    (∀ f : filewrite, f.what = "filewrite") ∧
    List.Pairwise Ne [(memseek.mk 0 0).what, (memread.mk 0 0 0 0).what,
      (pagefault.mk 0 0 0).what, (validate.mk 0 "").what, (filewrite.mk 0).what] :=
  ⟨fun _ => rfl, fun _ => rfl, fun _ => rfl, fun _ => rfl, fun _ => rfl, by decide⟩

/-- C6 counterexample: the claim that every reporter message contains every
stored context field fails on a memread short read: for the value with
address 0x1000, count 0, total 4096 and error 5, the diagnostic message
contains neither the system error text resolved from the stored error code
nor even its decimal rendering. -/
theorem c6_counterexample_short_read_omits_error :
    ¬ strContains (memread.mk 0x1000 0 4096 5).logMsg (sysErrorText 5) ∧
    ¬ strContains (memread.mk 0x1000 0 4096 5).logMsg (toString (5 : Int)) :=
  ⟨by decide, by decide⟩

/-- C6 (amended): the message produced by each kind's reporter contains
every meaningful stored context field verbatim, in a fixed order —
hex-formatted addresses, decimal counts, and system error text resolved
from the stored error code — where for memread the error field is
meaningful (and included, as resolved text) exactly when the stored count
is -1, and the count is included when non-negative. -/
theorem c6_log_contains_meaningful_fields :
    (∀ s : memseek,
        strContains s.logMsg (hex64 s.addr) ∧ strContains s.logMsg (toString s.offset)) ∧
    (∀ (a : maddr_t) (c : Nat) (t : ssize_t) (e : Int),
        strContains (memread.mk a (c : Int) t e).logMsg (hex64 a) ∧
        strContains (memread.mk a (c : Int) t e).logMsg (toString (c : Int)) ∧
        strContains (memread.mk a (c : Int) t e).logMsg (toString t)) ∧
    (∀ (a : maddr_t) (t : ssize_t) (e : Int),
        strContains (memread.mk a (-1) t e).logMsg (hex64 a) ∧
        strContains (memread.mk a (-1) t e).logMsg (toString t) ∧
        strContains (memread.mk a (-1) t e).logMsg (sysErrorText e)) ∧
    (∀ p : pagefault,
        strContains p.logMsg (hex64 p.vaddr) ∧ strContains p.logMsg (hex64 p.cr3) ∧
        strContains p.logMsg (toString p.level)) ∧
    (∀ v : validate,
        strContains v.logMsg (hex64 v.vaddr) ∧ strContains v.logMsg v.reason) ∧
    (∀ (f : filewrite) (file : String),
        strContains (f.logMsg file) file ∧
        strContains (f.logMsg file) (sysErrorText f.error)) := by
  refine ⟨fun s => ⟨?_, ?_⟩, fun a c t e => ⟨?_, ?_, ?_⟩, fun a t e => ⟨?_, ?_, ?_⟩,
    fun p => ⟨?_, ?_, ?_⟩, fun v => ⟨?_, ?_⟩, fun f file => ⟨?_, ?_⟩⟩
  · exact ⟨"memseek error: cannot seek to physical address 0x".data,
      (" (offset " ++ toString s.offset ++ ")").data,
      by simp [memseek.logMsg, strData_append]⟩
  · exact ⟨("memseek error: cannot seek to physical address 0x" ++ hex64 s.addr ++
        " (offset ").data, ")".data, by simp [memseek.logMsg, strData_append]⟩
  · exact ⟨("memread error: read " ++ toString (c : Int) ++ " of " ++ toString t ++
        " bytes at physical address 0x").data, [],
      by simp [memread.logMsg, strData_append, show ((c : Int)) ≠ -1 from by omega]⟩
  · exact ⟨"memread error: read ".data,
      (" of " ++ toString t ++ " bytes at physical address 0x" ++ hex64 a).data,
      by simp [memread.logMsg, strData_append, show ((c : Int)) ≠ -1 from by omega]⟩
  · exact ⟨("memread error: read " ++ toString (c : Int) ++ " of ").data,
      (" bytes at physical address 0x" ++ hex64 a).data,
      by simp [memread.logMsg, strData_append, show ((c : Int)) ≠ -1 from by omega]⟩
  · exact ⟨("memread error: cannot read " ++ toString t ++
        " bytes at physical address 0x").data, (": " ++ sysErrorText e).data,
      by simp [memread.logMsg, strData_append]⟩
  · exact ⟨"memread error: cannot read ".data,
      (" bytes at physical address 0x" ++ hex64 a ++ ": " ++ sysErrorText e).data,
      by simp [memread.logMsg, strData_append]⟩
  · exact ⟨("memread error: cannot read " ++ toString t ++
        " bytes at physical address 0x" ++ hex64 a ++ ": ").data, [],
      by simp [memread.logMsg, strData_append]⟩
  · exact ⟨"pagefault error: cannot walk pagetables for virtual address 0x".data,
      (" with cr3 0x" ++ hex64 p.cr3 ++ " at level " ++ toString p.level).data,
      by simp [pagefault.logMsg, strData_append]⟩
  · exact ⟨("pagefault error: cannot walk pagetables for virtual address 0x" ++
        hex64 p.vaddr ++ " with cr3 0x").data,
      (" at level " ++ toString p.level).data,
      by simp [pagefault.logMsg, strData_append]⟩
  · exact ⟨("pagefault error: cannot walk pagetables for virtual address 0x" ++
        hex64 p.vaddr ++ " with cr3 0x" ++ hex64 p.cr3 ++ " at level ").data, [],
      by simp [pagefault.logMsg, strData_append]⟩
  · exact ⟨"validate error: virtual address 0x".data,
      (" is invalid: " ++ v.reason).data,
      by simp [validate.logMsg, strData_append]⟩
  · exact ⟨("validate error: virtual address 0x" ++ hex64 v.vaddr ++
        " is invalid: ").data, [], by simp [validate.logMsg, strData_append]⟩
  · exact ⟨"filewrite error: cannot write to ".data,
      (": " ++ sysErrorText f.error).data,
      by simp [filewrite.logMsg, strData_append]⟩
  · exact ⟨("filewrite error: cannot write to " ++ file ++ ": ").data, [],
      by simp [filewrite.logMsg, strData_append]⟩

/-- C7: diagnostic reporting is deterministic and idempotent: running a
failure value's `log` operation twice in sequence — the second run starting
from the value the first run returned — produces identical messages. -/
theorem c7_log_deterministic_idempotent :
    (∀ s : memseek, s.logOp.1.logOp.2 = s.logOp.2) ∧
    (∀ r : memread, r.logOp.1.logOp.2 = r.logOp.2) ∧
    (∀ p : pagefault, p.logOp.1.logOp.2 = p.logOp.2) ∧
    (∀ v : validate, v.logOp.1.logOp.2 = v.logOp.2) ∧
    (∀ (f : filewrite) (file : String), ((f.logOp file).1.logOp file).2 = (f.logOp file).2) :=
  ⟨fun _ => rfl, fun _ => rfl, fun _ => rfl, fun _ => rfl, fun _ _ => rfl⟩

/-- C8: reporting never itself fails: for every failure value of every
kind, emitting its diagnostic message always succeeds (never raises a
failure, in particular never a filewrite failure), and when the primary
logfile channel is unavailable the message degrades to the best-effort
fallback stream. -/
theorem c8_reporting_never_fails :
    (∀ (st : LogState) (s : memseek), tryLog st s.logMsg =
        Except.ok ((if st.logfileUp then LogTarget.logfile else LogTarget.fallbackStream), s.logMsg)) ∧
    (∀ (st : LogState) (r : memread), tryLog st r.logMsg =
        Except.ok ((if st.logfileUp then LogTarget.logfile else LogTarget.fallbackStream), r.logMsg)) ∧
    (∀ (st : LogState) (p : pagefault), tryLog st p.logMsg =
        Except.ok ((if st.logfileUp then LogTarget.logfile else LogTarget.fallbackStream), p.logMsg)) ∧
    (∀ (st : LogState) (v : validate), tryLog st v.logMsg =
        Except.ok ((if st.logfileUp then LogTarget.logfile else LogTarget.fallbackStream), v.logMsg)) ∧
    (∀ (st : LogState) (f : filewrite) (file : String), tryLog st (f.logMsg file) =
        Except.ok ((if st.logfileUp then LogTarget.logfile else LogTarget.fallbackStream), f.logMsg file)) :=
  ⟨fun st _ => by cases h : st.logfileUp <;> simp [tryLog, h],
   fun st _ => by cases h : st.logfileUp <;> simp [tryLog, h],
   fun st _ => by cases h : st.logfileUp <;> simp [tryLog, h],
   fun st _ => by cases h : st.logfileUp <;> simp [tryLog, h],
   fun st _ _ => by cases h : st.logfileUp <;> simp [tryLog, h]⟩

/-- C9: a filewrite failure raised while emitting the report is fatal: the
run terminates with a non-zero exit status and a message that names the
failed output stream and the system error text for the stored error code
(obtained through `filewrite::log`, which accepts the stream name); in
particular, for errno 28 the message names "No space left on device". -/
theorem c9_filewrite_is_fatal :
    (∀ (f : filewrite) (stream : String),
        (handleFilewrite f stream).status ≠ 0 ∧
        strContains (handleFilewrite f stream).message stream ∧
        strContains (handleFilewrite f stream).message (sysErrorText f.error)) ∧
    (handleFilewrite (filewrite.mk 28) "report.out").status ≠ 0 ∧
    strContains (handleFilewrite (filewrite.mk 28) "report.out").message "No space left on device" :=
  ⟨fun f stream =>
    ⟨by simp [handleFilewrite],
     ⟨"filewrite error: cannot write to ".data, (": " ++ sysErrorText f.error).data,
       by simp [handleFilewrite, filewrite.logMsg, strData_append]⟩,
     ⟨("filewrite error: cannot write to " ++ stream ++ ": ").data, [],
       by simp [handleFilewrite, filewrite.logMsg, strData_append]⟩⟩,
   by decide, by decide⟩

/-- C10: filewrite is not part of the CommonError family: a handler that
catches the CommonError base receives every value of the four common kinds
and never a filewrite failure, and filewrite's reporter has a different
signature — its message depends on the stream-name argument that the other
kinds' `log` does not take. -/
theorem c10_filewrite_outside_common_family :
    (∀ f : filewrite, catchCommonError (AnyFailure.ofFilewrite f) = none) ∧
    (∀ c : CommonErrorVal, catchCommonError (AnyFailure.common c) = some c) ∧
    (∃ (f : filewrite) (s₁ s₂ : String), f.logMsg s₁ ≠ f.logMsg s₂) :=
  ⟨fun _ => rfl, fun _ => rfl, ⟨filewrite.mk 5, "a", "b", by decide⟩⟩
